import Mathlib

/- Shallow embedding of the agent orchestration and scoring core of the
milan-ai-dating backend (backend/app/agents/).  Python floats are modelled
as exact rationals, optional dict fields as Option values, raised
exceptions as Except, and the LLM call of each handler as an explicit
argument holding the (parsed) response it would have produced. -/

/-! ## Python-style string helpers -/

/-- Character-wise lowercasing, modelling Python str.lower on the texts the
keyword scan is used with. -/
def pyLower (s : String) : String := ⟨s.data.map Char.toLower⟩

/-- Whether needle occurs as a contiguous substring of the text, modelling
the Python test needle in haystack on strings. -/
def containsSub (needle : List Char) : List Char → Bool
  | [] => needle.isEmpty
  | c :: rest => needle.isPrefixOf (c :: rest) || containsSub needle rest

/-! ## Safety agent (backend/app/agents/safety.py) -/

/-- SafetyAgent.toxicity_keywords, set in the constructor. -/
def toxicity_keywords : List String :=
  ["hate", "kill", "die", "stupid", "idiot", "loser", "ugly",
   "randi", "madarchod", "behenchod", "chutiya", "bhosdi"]

/-- SafetyAgent._check_keywords: one contains_(keyword) flag per toxic
keyword occurring in the (already lowercased) text, in list order. -/
def check_keywords (text : String) : List String :=
  toxicity_keywords.filterMap fun kw =>
    if containsSub kw.data text.data then some ("contains_" ++ kw) else none

/-- The fields of the parsed LLM moderation response that
SafetyAgent._moderate_content reads or writes; a key absent from the parsed
dict is none (the source reads these with dict.get defaults). -/
structure ModResult where
  is_safe : Option Bool
  safety_score : Option ℚ
  severity : Option String
  action : Option String
  keyword_flags : Option (List String)
  tokens_used : Option ℤ
  deriving DecidableEq, Repr

/-- The keyword-merge block of SafetyAgent._moderate_content: run the
deterministic scan on the lowercased content and, when it fired, record the
flags, force is_safe to false and cap safety_score at 0.5 (score default
1.0); then record the token count from the LLM response. -/
def mergeKeywords (content : String) (llm : ModResult) (tokens : ℤ) : ModResult :=
  let kf := check_keywords (pyLower content)
  let r := if kf ≠ [] then
      { llm with
          keyword_flags := some kf
          is_safe := some false
          safety_score := some (min (llm.safety_score.getD 1) (1/2 : ℚ)) }
    else llm
  { r with tokens_used := some tokens }

/-- The final-action block of SafetyAgent._moderate_content: score below
0.3 blocks, below 0.6 flags, else a critical severity escalates, else the
action already present is kept. -/
def determineAction (r : ModResult) : ModResult :=
  if r.safety_score.getD 1 < 3/10 then { r with action := some "block" }
  else if r.safety_score.getD 1 < 6/10 then { r with action := some "flag" }
  else if r.severity = some "critical" then { r with action := some "escalate" }
  else r

/-- SafetyAgent._moderate_content, as a function of the content and of the
parsed LLM classification llm (with its token count): the keyword-merge
block followed by the final-action block. -/
def moderate_content (content : String) (llm : ModResult) (tokens : ℤ) : ModResult :=
  determineAction (mergeKeywords content llm tokens)

/-- An LLM response claiming a critical severity with a low safety score,
used to exercise the final-action thresholds. -/
def llmCritical : ModResult :=
  ⟨some true, some (1/5), some "critical", some "allow", none, none⟩

/-! ## Matching agent (backend/app/agents/matching.py) -/

/-- The profile fields MatchingAgent reads; a key absent from the payload
dict is none, and list-valued fields absent from the dict are the empty
list (the source reads them with dict.get defaults). -/
structure UserP where
  age : Option ℤ
  city : Option String
  province : Option String
  religion : Option String
  education : Option String
  smoking : Option String
  drinking : Option String
  diet : Option String
  interests : List String
  embedding : List ℚ
  deriving DecidableEq, Repr

/-- The preference fields MatchingAgent._calculate_preference_alignment
reads. -/
structure Prefs where
  age_min : Option ℤ
  age_max : Option ℤ
  preferred_religions : List String
  preferred_education_levels : List String
  deriving DecidableEq, Repr

/-- Python truthiness of an optional integer: None and 0 are falsy. -/
def pyTruthyInt : Option ℤ → Bool
  | none => false
  | some a => decide (a ≠ 0)

/-- np.dot of two equal-length vectors (exact arithmetic). -/
def dotQ (e1 e2 : List ℚ) : ℚ := (List.zipWith (fun a b => a * b) e1 e2).sum

open Classical in
/-- MatchingAgent._calculate_vector_similarity, with Python floats
modelled as exact reals: neutral 0.5 for a missing or empty embedding; the
length-mismatch case, where np.dot raises and the except branch answers,
is also 0.5; neutral 0.5 for a zero norm; otherwise cosine similarity
remapped by (cos + 1) / 2. -/
noncomputable def calculate_vector_similarity (e1 e2 : List ℚ) : ℝ :=
  if e1 = [] ∨ e2 = [] then 1/2
  else if e1.length ≠ e2.length then 1/2
  else if Real.sqrt ((dotQ e1 e1 : ℚ) : ℝ) = 0 ∨ Real.sqrt ((dotQ e2 e2 : ℚ) : ℝ) = 0 then 1/2
  else (((dotQ e1 e2 : ℚ) : ℝ)
    / (Real.sqrt ((dotQ e1 e1 : ℚ) : ℝ) * Real.sqrt ((dotQ e2 e2 : ℚ) : ℝ)) + 1) / 2

/-- The age criterion of MatchingAgent._calculate_preference_alignment:
scored only when both ages are truthy, 1.0 inside the requested band
(defaults 18 and 50) and 0.3 outside. -/
def agePart (user1 user2 : UserP) (preferences : Prefs) : List ℚ :=
  if pyTruthyInt user1.age && pyTruthyInt user2.age then
    [if preferences.age_min.getD 18 ≤ user2.age.getD 0 ∧
        user2.age.getD 0 ≤ preferences.age_max.getD 50 then (1 : ℚ) else 3/10]
  else []

/-- The location criterion: same city 1.0, same province 0.7, else 0.3 —
always scored, two absent fields comparing equal (None == None). -/
def locationScore (user1 user2 : UserP) : ℚ :=
  if user1.city = user2.city then 1
  else if user1.province = user2.province then 7/10
  else 3/10

/-- The religion criterion, scored only when a non-empty preferred list is
supplied; a missing religion on user2 is not in any list. -/
def religionPart (user2 : UserP) (preferences : Prefs) : List ℚ :=
  if preferences.preferred_religions ≠ [] then
    [if user2.religion.elim false (fun r => preferences.preferred_religions.contains r)
      then (1 : ℚ) else 1/5]
  else []

/-- The education criterion, scored only when a non-empty preferred list is
supplied. -/
def educationPart (user2 : UserP) (preferences : Prefs) : List ℚ :=
  if preferences.preferred_education_levels ≠ [] then
    [if user2.education.elim false (fun e => preferences.preferred_education_levels.contains e)
      then (1 : ℚ) else 2/5]
  else []

/-- The scores list built by MatchingAgent._calculate_preference_alignment,
in source order: age, location, religion, education. -/
def alignScores (user1 user2 : UserP) (preferences : Prefs) : List ℚ :=
  agePart user1 user2 preferences ++ [locationScore user1 user2]
    ++ religionPart user2 preferences ++ educationPart user2 preferences

/-- MatchingAgent._calculate_preference_alignment: the average of the
collected scores, 0.5 when no score was collected. -/
def calculate_preference_alignment (user1 user2 : UserP) (preferences : Prefs) : ℚ :=
  let scores := alignScores user1 user2 preferences
  if scores ≠ [] then scores.sum / scores.length else 1/2

/-- A payload dict carrying none of the profile fields. -/
def emptyUser : UserP := ⟨none, none, none, none, none, none, none, none, [], []⟩

/-- A payload dict carrying none of the preference fields. -/
def emptyPrefs : Prefs := ⟨none, none, [], []⟩

/-! ## Fraud detection agent (backend/app/agents/fraud_detection.py)

Only the score accumulation of each sub-check is modelled; the flag-string
lists and fixed confidences the source builds alongside do not feed the
claims.  swipe_right_frac and duplicate_message_frac stand for the source
keys ending in _ratio. -/

/-- The profile fields FraudDetectionAgent._assess_profile_risk reads; a
missing key is none (the source reads them with dict.get defaults). -/
structure FraudProfile where
  account_age_days : Option ℚ
  is_premium : Bool
  accounts_from_same_ip : Option ℚ
  photo_count : Option ℚ
  ip_country : Option String
  profile_country : Option String
  deriving DecidableEq, Repr

/-- The behavior_data fields the fraud sub-checks read; a missing key is
none. -/
structure BehaviorData where
  messages_per_hour : Option ℚ
  swipe_right_frac : Option ℚ
  duplicate_message_frac : Option ℚ
  avg_time_to_message_minutes : Option ℚ
  external_link_sharing : Bool
  love_bombing_score : Option ℚ
  investment_mentions : Option ℚ
  crisis_mentions : Option ℚ
  off_platform_requests : Option ℚ
  deriving DecidableEq, Repr

/-- Score accumulation of FraudDetectionAgent._assess_profile_risk: a
weighted sum of the triggered profile flags, clamped to 1.0. -/
def assess_profile_risk_score (p : FraudProfile) : ℚ :=
  min ((if p.account_age_days.getD 0 < 1 ∧ p.is_premium then (3/10 : ℚ) else 0)
    + (if p.accounts_from_same_ip.getD 0 > 1 then 2/5 else 0)
    + (if p.photo_count.getD 0 = 0 then 1/5 else 0)
    + (if p.ip_country ≠ p.profile_country then 1/4 else 0)) 1

/-- Score accumulation of FraudDetectionAgent._assess_behavior_risk: a
weighted sum of the triggered behavior flags (message velocity at two
levels, indiscriminate swiping, copy-paste messages, immediate messaging,
external link sharing), clamped to 1.0. -/
def assess_behavior_risk_score (b : BehaviorData) : ℚ :=
  min ((if b.messages_per_hour.getD 0 > 50 then (2/5 : ℚ)
      else if b.messages_per_hour.getD 0 > 20 then 1/5 else 0)
    + (if b.swipe_right_frac.getD (1/2) > 19/20 then 3/10 else 0)
    + (if b.duplicate_message_frac.getD 0 > 1/2 then 7/20 else 0)
    + (if b.avg_time_to_message_minutes.getD 1000 < 1 then 1/5 else 0)
    + (if b.external_link_sharing then 2/5 else 0)) 1

/-- Score accumulation of FraudDetectionAgent._detect_suspicious_patterns,
clamped to 1.0. -/
def detect_suspicious_patterns_score (b : BehaviorData) : ℚ :=
  min ((if b.love_bombing_score.getD 0 > 7/10 then (1/2 : ℚ) else 0)
    + (if b.investment_mentions.getD 0 > 0 then 2/5 else 0)
    + (if b.crisis_mentions.getD 0 > 2 then 7/20 else 0)
    + (if b.off_platform_requests.getD 0 > 0 then 3/10 else 0)) 1

/-- The overall risk score computed by FraudDetectionAgent._check_fraud
before rounding for the response dict. -/
def check_fraud_risk_score (p : FraudProfile) (b : BehaviorData) : ℚ :=
  4/10 * assess_profile_risk_score p
    + 4/10 * assess_behavior_risk_score b
    + 2/10 * detect_suspicious_patterns_score b

/-- Behavior data triggering high message velocity, copy-paste messages
and external link sharing at once, whose raw weighted sum 1.15 exceeds
1.0. -/
def overBehavior : BehaviorData :=
  ⟨some 60, some (1/2), some (6/10), some 1000, true, none, none, none, none⟩

/-! ## Subscription agent (backend/app/agents/subscription.py) -/

/-- monthly_price of SUBSCRIPTION_PLANS (backend/app/core/config.py),
looked up as SUBSCRIPTION_PLANS.get(plan, \x7b\x7d).get("monthly_price", 0):
an unknown or missing plan code prices at 0. -/
def monthly_price : Option String → ℚ
  | some "free" => 0
  | some "basic" => 499
  | some "premium" => 999
  | some "elite" => 1999
  | _ => 0

/-- Round-half-to-even of a rational to an integer, the rounding Python's
built-in round performs. -/
def roundHalfEven (q : ℚ) : ℤ :=
  if q - ⌊q⌋ < 1/2 then ⌊q⌋
  else if 1/2 < q - ⌊q⌋ then ⌊q⌋ + 1
  else if Even ⌊q⌋ then ⌊q⌋ else ⌊q⌋ + 1

/-- Python round(x, 2) on the exact-rational model. -/
def pyRound2 (q : ℚ) : ℚ := (roundHalfEven (q * 100) : ℤ) / 100

/-- The fields of the dict SubscriptionAgent._calculate_proration returns;
remaining_value is present only on the non-free branch, and the
wall-clock next_billing_date is outside the model. -/
structure ProrationResult where
  proration_amount : ℚ
  credit_amount : ℚ
  remaining_value : Option ℚ
  deriving DecidableEq, Repr

/-- SubscriptionAgent._calculate_proration: free current plan short-cuts
to the full new price; otherwise daily rates over the billing period give
remaining value and new cost, and the difference is clamped into an amount
due and a credit, each rounded to 2 decimals.  A zero days_in_period makes
the division raise ZeroDivisionError in the source. -/
def calculate_proration (current_plan : String) (new_plan : Option String)
    (days_used days_in_period : ℚ) : Except String ProrationResult :=
  let current_price := monthly_price (some current_plan)
  let new_price := monthly_price new_plan
  if current_price = 0 then Except.ok ⟨new_price, 0, none⟩
  else if days_in_period = 0 then Except.error "ZeroDivisionError"
  else
    let daily_rate := current_price / days_in_period
    let remaining_days := days_in_period - days_used
    let remaining_value := daily_rate * remaining_days
    let new_daily_rate := new_price / days_in_period
    let new_cost := new_daily_rate * remaining_days
    let proration := new_cost - remaining_value
    Except.ok ⟨max 0 (pyRound2 proration), max 0 (pyRound2 (-proration)),
      some (pyRound2 remaining_value)⟩

/-! ## Execution envelope (backend/app/agents/base.py) and orchestrator
(backend/app/agents/orchestrator.py)

The payload and result dicts the orchestrator passes around are opaque to
it and are modelled as string-to-string association lists.  BaseAgent
.execute awaits self.process and wraps the outcome; wall-clock timing and
the best-effort logging write are outside the model, the measured
milliseconds entering as an argument. -/

/-- An opaque payload/result dict. -/
abbrev Payload := List (String × String)

/-- The uniform envelope BaseAgent.execute returns: a normal process
return yields success with the result dict; a raised exception is caught
and yields failure with the stringified exception (no result key). -/
structure EnvResult where
  success : Bool
  agent_name : String
  action : Option String
  result : Option Payload
  error : Option String
  execution_time_ms : ℤ
  deriving DecidableEq, Repr

/-- BaseAgent.execute, as a function of the outcome of
self.process(payload). -/
def execute (agentName : String) (action : Option String) (t : ℤ)
    (outcome : Except String Payload) : EnvResult :=
  match outcome with
  | Except.ok r => ⟨true, agentName, action, some r, none, t⟩
  | Except.error e => ⟨false, agentName, action, none, some e, t⟩

/-- Python str() of an optional string as f-strings render it: None
prints as "None". -/
def pyStrOpt : Option String → String
  | none => "None"
  | some s => s

/-- The actions MatchingAgent.process recognizes, in dispatch order. -/
def matching_actions : List String :=
  ["find_matches", "calculate_compatibility", "explain_match", "rank_candidates"]

/-- MatchingAgent.process: dispatch on payload.action; every recognized
action awaits a sub-handler (which itself calls the LLM, so its outcome
enters as the handlers argument); an unrecognized action returns the
error-bearing dict as a normal result, not an exception. -/
def matching_process (handlers : String → Except String Payload)
    (action : Option String) : Except String Payload :=
  if action = some "find_matches" then handlers "find_matches"
  else if action = some "calculate_compatibility" then handlers "calculate_compatibility"
  else if action = some "explain_match" then handlers "explain_match"
  else if action = some "rank_candidates" then handlers "rank_candidates"
  else Except.ok [("error", "Unknown action: " ++ pyStrOpt action)]

/-- The actions SafetyAgent.process recognizes, in dispatch order. -/
def safety_actions : List String :=
  ["moderate_content", "check_message", "check_profile", "analyze_image"]

/-- SafetyAgent.process: same dispatch shape as MatchingAgent.process. -/
def safety_process (handlers : String → Except String Payload)
    (action : Option String) : Except String Payload :=
  if action = some "moderate_content" then handlers "moderate_content"
  else if action = some "check_message" then handlers "check_message"
  else if action = some "check_profile" then handlers "check_profile"
  else if action = some "analyze_image" then handlers "analyze_image"
  else Except.ok [("error", "Unknown action: " ++ pyStrOpt action)]

/-- One request of an execute_parallel batch. -/
structure PReq where
  agent : Option String
  action : Option String
  payload : Payload
  deriving DecidableEq, Repr

/-- One entry of the list execute_parallel returns: either the envelope an
agent execution produced, or the error dict built from an exception
captured by asyncio.gather (carrying the agent name of the request at the
same index into the gathered results — after filtering, not necessarily
the request that raised). -/
inductive PItem
  | res (env : EnvResult)
  | errItem (agent : Option String) (error : String)
  deriving DecidableEq, Repr

/-- The agent names OrchestratorAgent._register_agents registers. -/
def orchestrator_agents : List String :=
  ["user_profile", "matching", "conversation", "safety", "fraud_detection",
   "image_verification", "subscription", "analytics", "admin"]

/-- OrchestratorAgent.execute_parallel, each agent execution's outcome
given by exec (the error case standing for an exception surfacing in
asyncio.gather's result list): requests naming an unregistered agent are
skipped when the task list is built, and the gathered results are indexed
against the full request list when exceptions are rewrapped. -/
def execute_parallel (registry : List String) (exec : PReq → Except String EnvResult)
    (requests : List PReq) : List PItem :=
  let tasks := requests.filter fun r => match r.agent with
    | some a => registry.contains a
    | none => false
  let results := tasks.map exec
  results.enum.map fun p =>
    match p.2 with
    | Except.error e => PItem.errItem ((requests[p.1]?).bind PReq.agent) e
    | Except.ok env => PItem.res env

/-- The parallel batch of the claim: three requests, the second naming an
agent absent from the registry. -/
def parallelReqs : List PReq :=
  [⟨some "safety", some "moderate_content", []⟩,
   ⟨some "nonexistent_agent", some "whatever", []⟩,
   ⟨some "matching", some "find_matches", []⟩]

/-- A batch executor whose every execution succeeds. -/
def parallelExec : PReq → Except String EnvResult :=
  fun r => Except.ok ⟨true, r.agent.getD "", r.action, some [], none, 1⟩

/-- One step of an execute_pipeline call. -/
structure PStep where
  agent : Option String
  action : Option String
  transform : Option (Payload → Payload)
  stop_on_error : Option Bool

/-- One entry of pipeline_results: the not-found error dict, or the dict
recording a step that ran. -/
inductive PipeEntry
  | notFound (step : Option String) (error : String)
  | ran (step : Option String) (agent : Option String) (success : Bool) (result : EnvResult)
  deriving DecidableEq, Repr

/-- The success value each pipeline_results entry carries. -/
def entrySuccess : PipeEntry → Bool
  | PipeEntry.notFound _ _ => false
  | PipeEntry.ran _ _ s _ => s

/-- The dict execute_pipeline returns. -/
structure PipeOutput where
  success : Bool
  pipeline_results : List PipeEntry
  final_payload : Payload
  deriving DecidableEq, Repr

/-- The loop of OrchestratorAgent.execute_pipeline: an unregistered agent
appends a not-found entry and continues; otherwise the agent executes on
the current payload, its entry is appended, a failure breaks out unless
stop_on_error (default true) is cleared, and on success the payload
becomes the step result (through the transform when one is supplied). -/
def pipelineGo (registry : List String)
    (exec : Option String → Option String → Payload → EnvResult) :
    List PStep → Payload → List PipeEntry → PipeOutput
  | [], payload, acc => ⟨acc.all entrySuccess, acc, payload⟩
  | step :: rest, payload, acc =>
    let registered := match step.agent with
      | some a => registry.contains a
      | none => false
    if registered then
      let env := exec step.agent step.action payload
      let acc2 := acc ++ [PipeEntry.ran step.action step.agent env.success env]
      if !env.success && step.stop_on_error.getD true then
        ⟨acc2.all entrySuccess, acc2, payload⟩
      else
        let payload2 :=
          match step.transform with
          | some f => if env.success then f (env.result.getD []) else payload
          | none => if env.success then env.result.getD [] else payload
        pipelineGo registry exec rest payload2 acc2
    else
      pipelineGo registry exec rest payload
        (acc ++ [PipeEntry.notFound step.action
          ("Agent " ++ pyStrOpt step.agent ++ " not found")])

/-- OrchestratorAgent.execute_pipeline. -/
def execute_pipeline (registry : List String)
    (exec : Option String → Option String → Payload → EnvResult)
    (pipeline : List PStep) (initial_payload : Payload) : PipeOutput :=
  pipelineGo registry exec pipeline initial_payload []

/-- A pipeline executor for the counterexample: the safety agent succeeds
with a fixed result dict, every other agent fails. -/
def pipeExecCex : Option String → Option String → Payload → EnvResult :=
  fun ag ac _ =>
    if ag = some "safety" then ⟨true, "safety", ac, some [("r1", "v")], none, 1⟩
    else ⟨false, pyStrOpt ag, ac, none, some "boom", 1⟩

/-- The 3-step pipeline of the counterexample: step 1 succeeds and carries
a transform, step 2 fails, nothing sets stop_on_error. -/
def pipeStepsCex : List PStep :=
  [⟨some "safety", some "a1", some (fun _ => [("t", "1")]), none⟩,
   ⟨some "matching", some "a2", none, none⟩,
   ⟨some "safety", some "a3", none, none⟩]

/-! ## Response normalizer (BaseAgent.parse_json_response, base.py)

json.loads is modelled by a fuel-based recursive-descent parser over the
JSON grammar Python accepts (strict strings, objects with string keys kept
in order, numbers with optional fraction and exponent, the parse_constant
extensions NaN / Infinity / -Infinity); the fuel 2*length+8 strictly
dominates the parser's call depth, so running out of fuel is unreachable.
The two regex stages are modelled by direct scans with the same
match semantics (first fence pair with optional json tag and lazy interior;
greedy first-brace-to-last-brace span). -/

/-- A parsed JSON value as Python represents it (dicts keep insertion
order here; a repeated key never occurs in the claims). -/
inductive Json
  | null
  | bool (b : Bool)
  | num (q : ℚ)
  | nan
  | inf (pos : Bool)
  | str (s : String)
  | arr (xs : List Json)
  | obj (kvs : List (String × Json))

/-- Whether a parsed value is a dict. -/
def Json.isObj : Json → Bool
  | Json.obj _ => true
  | _ => false

/-- The whitespace json.loads skips between tokens. -/
def jsonWs (c : Char) : Bool := c = ' ' || c = '\t' || c = '\n' || c = '\r'

/-- Drop leading JSON whitespace. -/
def skipWs : List Char → List Char
  | [] => []
  | c :: rest => if jsonWs c then skipWs rest else c :: rest

/-- Split the longest leading digit run off a character list. -/
def takeDigits : List Char → List Char × List Char
  | [] => ([], [])
  | c :: rest =>
    if c.isDigit then
      let t := takeDigits rest
      (c :: t.1, t.2)
    else ([], c :: rest)

/-- Decimal value of a digit run. -/
def digitsToNat (ds : List Char) : Nat := ds.foldl (fun n c => n * 10 + (c.toNat - 48)) 0

/-- Value of one hexadecimal digit. -/
def hexVal (c : Char) : Option Nat :=
  if '0' ≤ c ∧ c ≤ '9' then some (c.toNat - 48)
  else if 'a' ≤ c ∧ c ≤ 'f' then some (c.toNat - 87)
  else if 'A' ≤ c ∧ c ≤ 'F' then some (c.toNat - 55)
  else none

/-- Body of a JSON string after the opening quote, strict mode: escapes
are decoded, bare control characters are rejected; a \u escape becomes the
character of its code point. -/
def pjStringBody : Nat → List Char → List Char → Option (String × List Char)
  | 0, _, _ => none
  | fuel + 1, acc, cs =>
    match cs with
    | [] => none
    | '\"' :: rest => some (⟨acc.reverse⟩, rest)
    | '\\' :: esc =>
      match esc with
      | '\"' :: rest => pjStringBody fuel ('\"' :: acc) rest
      | '\\' :: rest => pjStringBody fuel ('\\' :: acc) rest
      | '/' :: rest => pjStringBody fuel ('/' :: acc) rest
      | 'b' :: rest => pjStringBody fuel ('\x08' :: acc) rest
      | 'f' :: rest => pjStringBody fuel ('\x0c' :: acc) rest
      | 'n' :: rest => pjStringBody fuel ('\n' :: acc) rest
      | 'r' :: rest => pjStringBody fuel ('\r' :: acc) rest
      | 't' :: rest => pjStringBody fuel ('\t' :: acc) rest
      | 'u' :: h1 :: h2 :: h3 :: h4 :: rest =>
        match hexVal h1, hexVal h2, hexVal h3, hexVal h4 with
        | some a, some b, some c, some d =>
          pjStringBody fuel (Char.ofNat (((a * 16 + b) * 16 + c) * 16 + d) :: acc) rest
        | _, _, _, _ => none
      | _ => none
    | c :: rest => if c.toNat < 32 then none else pjStringBody fuel (c :: acc) rest

/-- Numeric value from sign, integer digits, fraction digits and signed
exponent digits. -/
def pjNumValue (neg : Bool) (ip fp : List Char) (eneg : Bool) (ep : List Char) : ℚ :=
  let base : ℚ := (digitsToNat ip : ℚ) + (digitsToNat fp : ℚ) / (10 : ℚ) ^ fp.length
  let s := if neg then -base else base
  if eneg then s / (10 : ℚ) ^ digitsToNat ep else s * (10 : ℚ) ^ digitsToNat ep

/-- The number token json.loads accepts: optional minus, 0 or a nonzero-led
digit run, optional fraction (consumed only with at least one digit),
optional exponent (idem). -/
def pjNumber (cs : List Char) : Option (Json × List Char) :=
  let sn : Bool × List Char :=
    match cs with
    | '-' :: r => (true, r)
    | _ => (false, cs)
  let ipr : List Char × List Char :=
    match sn.2 with
    | '0' :: r => (['0'], r)
    | _ => takeDigits sn.2
  if ipr.1 = [] then none
  else
    let fpr : List Char × List Char :=
      match ipr.2 with
      | '.' :: r =>
        let t := takeDigits r
        if t.1 = [] then ([], ipr.2) else (t.1, t.2)
      | _ => ([], ipr.2)
    let epr : (Bool × List Char) × List Char :=
      match fpr.2 with
      | 'e' :: r | 'E' :: r =>
        match r with
        | '+' :: r2 =>
          let t := takeDigits r2
          if t.1 = [] then ((false, []), fpr.2) else ((false, t.1), t.2)
        | '-' :: r2 =>
          let t := takeDigits r2
          if t.1 = [] then ((false, []), fpr.2) else ((true, t.1), t.2)
        | _ =>
          let t := takeDigits r
          if t.1 = [] then ((false, []), fpr.2) else ((false, t.1), t.2)
      | _ => ((false, []), fpr.2)
    some (Json.num (pjNumValue sn.1 ipr.1 fpr.1 epr.1.1 epr.1.2), epr.2)

/-- The three mutually recursive parsing loops, tied together through one
structural fuel parameter so that every definition reduces in the
kernel. -/
structure PjFuns where
  val : List Char → Option (Json × List Char)
  arrItems : List Json → List Char → Option (Json × List Char)
  objItems : List (String × Json) → List Char → Option (Json × List Char)

/-- One fuel step of the json.loads grammar: val parses any value after
leading whitespace; arrItems and objItems are the comma loops of arrays
and objects (the brace characters are matched through their code points
123 and 125). -/
def pj : Nat → PjFuns
  | 0 => ⟨fun _ => none, fun _ _ => none, fun _ _ => none⟩
  | fuel + 1 =>
    let p := pj fuel
    { val := fun cs0 =>
        match skipWs cs0 with
        | [] => none
        | c :: rest =>
          if c = '\"' then
            match pjStringBody (rest.length + 1) [] rest with
            | some kr => some (Json.str kr.1, kr.2)
            | none => none
          else if c.toNat = 123 then
            match skipWs rest with
            | c2 :: r2 =>
              if c2.toNat = 125 then some (Json.obj [], r2)
              else p.objItems [] (skipWs rest)
            | [] => none
          else if c = '[' then
            match skipWs rest with
            | c2 :: r2 =>
              if c2 = ']' then some (Json.arr [], r2)
              else p.arrItems [] (skipWs rest)
            | [] => none
          else if "true".data.isPrefixOf (c :: rest) then
            some (Json.bool true, (c :: rest).drop 4)
          else if "false".data.isPrefixOf (c :: rest) then
            some (Json.bool false, (c :: rest).drop 5)
          else if "null".data.isPrefixOf (c :: rest) then
            some (Json.null, (c :: rest).drop 4)
          else if "NaN".data.isPrefixOf (c :: rest) then
            some (Json.nan, (c :: rest).drop 3)
          else if "Infinity".data.isPrefixOf (c :: rest) then
            some (Json.inf true, (c :: rest).drop 8)
          else if "-Infinity".data.isPrefixOf (c :: rest) then
            some (Json.inf false, (c :: rest).drop 9)
          else pjNumber (c :: rest)
      arrItems := fun acc cs =>
        match p.val cs with
        | some vr =>
          match skipWs vr.2 with
          | c :: r2 =>
            if c = ',' then p.arrItems (acc ++ [vr.1]) r2
            else if c = ']' then some (Json.arr (acc ++ [vr.1]), r2)
            else none
          | [] => none
        | none => none
      objItems := fun acc cs =>
        match skipWs cs with
        | c :: r2 =>
          if c = '\"' then
            match pjStringBody (r2.length + 1) [] r2 with
            | some kr =>
              match skipWs kr.2 with
              | c2 :: r4 =>
                if c2 = ':' then
                  match p.val r4 with
                  | some vr =>
                    match skipWs vr.2 with
                    | c3 :: r6 =>
                      if c3 = ',' then p.objItems (acc ++ [(kr.1, vr.1)]) r6
                      else if c3.toNat = 125 then
                        some (Json.obj (acc ++ [(kr.1, vr.1)]), r6)
                      else none
                    | [] => none
                  | none => none
                else none
              | [] => none
            | none => none
          else none
        | [] => none }

/-- json.loads: parse one value and require only whitespace to follow. -/
def jsonLoads (s : String) : Option Json :=
  match (pj (2 * s.length + 8)).val s.data with
  | some jr => if skipWs jr.2 = [] then some jr.1 else none
  | none => none

/-- The whitespace class of the regex stages (Python re \s on the ASCII
range). -/
def pyWs (c : Char) : Bool := c.isWhitespace || c = '\x0b' || c = '\x0c'

/-- A code fence. -/
def fence : List Char := "```".data

/-- Characters before the next fence, or none when no fence follows. -/
def takeUntilFence : List Char → List Char → Option (List Char)
  | [], _ => none
  | c :: rest, acc =>
    if fence.isPrefixOf (c :: rest) then some acc.reverse
    else takeUntilFence rest (c :: acc)

/-- The first match of the fenced-block regex: at each fence, strip an
optional json tag and leading whitespace, take the lazy interior up to the
next fence and strip its trailing whitespace; with no closing fence the
scan backtracks to the next starting position. -/
def findFenceContent : List Char → Option (List Char)
  | [] => none
  | c :: rest =>
    if fence.isPrefixOf (c :: rest) then
      let after := (c :: rest).drop 3
      let after2 := if "json".data.isPrefixOf after then after.drop 4 else after
      let body := after2.dropWhile pyWs
      match takeUntilFence body [] with
      | some content => some ((content.reverse.dropWhile pyWs).reverse)
      | none => findFenceContent rest
    else findFenceContent rest

/-- The fenced-block stage of parse_json_response. -/
def extractFenced (s : String) : Option String :=
  (findFenceContent s.data).map fun cs => ⟨cs⟩

/-- The greedy brace-span regex: the span from the first opening brace
(code point 123) to the last closing brace (code point 125), when the
latter comes after the former. -/
def extractBraces (cs : List Char) : Option (List Char) :=
  match cs.findIdx? (fun c => c.toNat = 123), cs.reverse.findIdx? (fun c => c.toNat = 125) with
  | some i, some jr =>
    let j := cs.length - 1 - jr
    if i < j then some ((cs.drop i).take (j - i + 1)) else none
  | _, _ => none

/-- The shared tail of parse_json_response: try the brace span, else fall
back to the raw_response dict. -/
def braceFallback (content : String) : Json :=
  match extractBraces content.data with
  | some cs =>
    match jsonLoads ⟨cs⟩ with
    | some j => j
    | none => Json.obj [("raw_response", Json.str content)]
  | none => Json.obj [("raw_response", Json.str content)]

/-- BaseAgent.parse_json_response: direct parse, else fenced block, else
brace span, else the raw_response fallback. -/
def parse_json_response (content : String) : Json :=
  match jsonLoads content with
  | some j => j
  | none =>
    match extractFenced content with
    | some inner =>
      match jsonLoads inner with
      | some j => j
      | none => braceFallback content
    | none => braceFallback content

/-! ## Theorems -/

/-- Record updates in determineAction never touch is_safe. -/
theorem determineAction_is_safe (r : ModResult) :
    (determineAction r).is_safe = r.is_safe := by
  unfold determineAction
  split
  · rfl
  split
  · rfl
  split
  · rfl
  · rfl

/-- Record updates in determineAction never touch safety_score. -/
theorem determineAction_safety_score (r : ModResult) :
    (determineAction r).safety_score = r.safety_score := by
  unfold determineAction
  split
  · rfl
  split
  · rfl
  split
  · rfl
  · rfl

/-- The severity field is untouched by the keyword-merge block. -/
theorem mergeKeywords_severity (content : String) (llm : ModResult) (tokens : ℤ) :
    (mergeKeywords content llm tokens).severity = llm.severity := by
  simp only [mergeKeywords]
  split <;> rfl

/-- The action field is untouched by the keyword-merge block. -/
theorem mergeKeywords_action (content : String) (llm : ModResult) (tokens : ℤ) :
    (mergeKeywords content llm tokens).action = llm.action := by
  simp only [mergeKeywords]
  split <;> rfl

/-- Branch lemma: a merged score below 0.3 blocks. -/
theorem determineAction_block (r : ModResult) (h : r.safety_score.getD 1 < 3/10) :
    (determineAction r).action = some "block" := by
  unfold determineAction
  rw [if_pos h]

/-- Branch lemma: a merged score in the 0.3 to 0.6 band flags. -/
theorem determineAction_flag (r : ModResult) (h1 : ¬ r.safety_score.getD 1 < 3/10)
    (h2 : r.safety_score.getD 1 < 6/10) :
    (determineAction r).action = some "flag" := by
  unfold determineAction
  rw [if_neg h1, if_pos h2]

/-- Branch lemma: at a score of at least 0.6 a critical severity
escalates. -/
theorem determineAction_escalate (r : ModResult) (h1 : ¬ r.safety_score.getD 1 < 3/10)
    (h2 : ¬ r.safety_score.getD 1 < 6/10) (h3 : r.severity = some "critical") :
    (determineAction r).action = some "escalate" := by
  unfold determineAction
  rw [if_neg h1, if_neg h2, if_pos h3]

/-- Branch lemma: at a score of at least 0.6 and no critical severity the
action is kept. -/
theorem determineAction_keep (r : ModResult) (h1 : ¬ r.safety_score.getD 1 < 3/10)
    (h2 : ¬ r.safety_score.getD 1 < 6/10) (h3 : ¬ r.severity = some "critical") :
    (determineAction r).action = r.action := by
  unfold determineAction
  rw [if_neg h1, if_neg h2, if_neg h3]

/-- C2: whenever the deterministic keyword scan matches the content, the
merged moderation result has is_safe = false and its safety_score is the
minimum of the LLM-reported score (default 1.0) and 0.5 — hence at most 0.5
and never above the LLM's own score. -/
theorem keyword_scan_overrides_llm (content : String) (llm : ModResult) (tokens : ℤ)
    (h : check_keywords (pyLower content) ≠ []) :
    (moderate_content content llm tokens).is_safe = some false ∧
    (moderate_content content llm tokens).safety_score
      = some (min (llm.safety_score.getD 1) (1/2 : ℚ)) ∧
    min (llm.safety_score.getD 1) (1/2 : ℚ) ≤ 1/2 ∧
    min (llm.safety_score.getD 1) (1/2 : ℚ) ≤ llm.safety_score.getD 1 := by
  unfold moderate_content
  rw [determineAction_is_safe, determineAction_safety_score]
  unfold mergeKeywords
  simp [h]

/-- Witness for C2: toxic content plus an LLM response claiming is_safe =
true with score 0.9 is merged to is_safe = false with score 0.5. -/
theorem keyword_scan_overrides_llm_witness :
    (moderate_content "You are an IDIOT" ⟨some true, some (9/10), some "low", some "allow", none, none⟩ 7).is_safe
      = some false ∧
    (moderate_content "You are an IDIOT" ⟨some true, some (9/10), some "low", some "allow", none, none⟩ 7).safety_score
      = some (1/2 : ℚ) := by
  have h := keyword_scan_overrides_llm "You are an IDIOT"
    ⟨some true, some (9/10), some "low", some "allow", none, none⟩ 7 (by decide)
  refine ⟨h.1, h.2.1.trans ?_⟩
  rw [Option.getD_some, min_eq_right (by norm_num : (1/2 : ℚ) ≤ 9/10)]

/-- The merged score of the critical-severity low-score example lies below
the blocking threshold. -/
theorem llmCritical_merge_score :
    (mergeKeywords "hello" llmCritical 0).safety_score.getD 1 < 3/10 := by
  have hkf : check_keywords (pyLower "hello") = [] := by decide
  simp only [mergeKeywords, hkf, ne_eq, not_true_eq_false, if_false, llmCritical,
    Option.getD_some]
  norm_num

/-- C3 counterexample: content with no toxic keyword whose LLM
classification reports safety_score 0.2 and severity critical is blocked,
not escalated — a critical severity does not escalate at every score. -/
theorem critical_severity_blocked_at_low_score :
    (moderate_content "hello" llmCritical 0).action = some "block" ∧
    (moderate_content "hello" llmCritical 0).action ≠ some "escalate" := by
  have hb : (moderate_content "hello" llmCritical 0).action = some "block" :=
    determineAction_block _ llmCritical_merge_score
  refine ⟨hb, ?_⟩
  rw [hb]
  decide

/-- C3 amended: the final action follows the merged safety_score
thresholds — below 0.3 block, below 0.6 flag — and only in the remaining
branch (score at least 0.6) does a critical severity escalate; otherwise
the LLM's suggested action is kept. -/
theorem moderation_action_thresholds (content : String) (llm : ModResult) (tokens : ℤ) :
    ((mergeKeywords content llm tokens).safety_score.getD 1 < 3/10 →
      (moderate_content content llm tokens).action = some "block") ∧
    (3/10 ≤ (mergeKeywords content llm tokens).safety_score.getD 1 →
      (mergeKeywords content llm tokens).safety_score.getD 1 < 6/10 →
      (moderate_content content llm tokens).action = some "flag") ∧
    (6/10 ≤ (mergeKeywords content llm tokens).safety_score.getD 1 →
      llm.severity = some "critical" →
      (moderate_content content llm tokens).action = some "escalate") ∧
    (6/10 ≤ (mergeKeywords content llm tokens).safety_score.getD 1 →
      llm.severity ≠ some "critical" →
      (moderate_content content llm tokens).action = llm.action) := by
  unfold moderate_content
  refine ⟨fun h1 => determineAction_block _ h1,
    fun h1 h2 => determineAction_flag _ (not_lt.mpr h1) h2,
    fun h1 h2 => determineAction_escalate _ (not_lt.mpr (le_trans (by norm_num) h1))
      (not_lt.mpr h1) (by rw [mergeKeywords_severity]; exact h2),
    fun h1 h2 => ?_⟩
  rw [determineAction_keep _ (not_lt.mpr (le_trans (by norm_num) h1)) (not_lt.mpr h1)
    (by rw [mergeKeywords_severity]; exact h2), mergeKeywords_action]

/-- Witness for C3 amended: the critical-severity LLM response with score
0.2 is blocked by the first threshold. -/
theorem moderation_action_thresholds_witness :
    (moderate_content "hello" llmCritical 0).action = some "block" :=
  (moderation_action_thresholds "hello" llmCritical 0).1 llmCritical_merge_score

/-- zipWith multiplication of a list with itself squares every entry. -/
theorem zipWith_mul_self (l : List ℚ) :
    List.zipWith (fun a b => a * b) l l = l.map (fun a => a * a) := by
  induction l with
  | nil => rfl
  | cons a t ih => simp [ih]

/-- The dot product of a vector with itself is nonnegative. -/
theorem dotQ_self_nonneg (e : List ℚ) : 0 ≤ dotQ e e := by
  unfold dotQ
  rw [zipWith_mul_self]
  apply List.sum_nonneg
  intro x hx
  rcases List.mem_map.mp hx with ⟨a, _, rfl⟩
  exact mul_self_nonneg a

/-- Similarity of an empty left embedding is neutral. -/
theorem vs_empty_left (e2 : List ℚ) : calculate_vector_similarity [] e2 = 1/2 := by
  unfold calculate_vector_similarity
  rw [if_pos (Or.inl rfl)]

/-- Similarity of an empty right embedding is neutral. -/
theorem vs_empty_right (e1 : List ℚ) : calculate_vector_similarity e1 [] = 1/2 := by
  unfold calculate_vector_similarity
  rw [if_pos (Or.inr rfl)]

/-- A zero norm on either side gives the neutral similarity. -/
theorem vs_norm_zero (e1 e2 : List ℚ) (h : dotQ e1 e1 = 0 ∨ dotQ e2 e2 = 0) :
    calculate_vector_similarity e1 e2 = 1/2 := by
  unfold calculate_vector_similarity
  split_ifs with h1 h2 h3
  · rfl
  · rfl
  · rfl
  · exfalso
    apply h3
    rcases h with h | h
    · exact Or.inl (by rw [h]; simp)
    · exact Or.inr (by rw [h]; simp)

/-- In the nondegenerate case the result is the remapped cosine. -/
theorem vs_formula (e1 e2 : List ℚ) (h1 : e1 ≠ []) (h2 : e2 ≠ [])
    (hl : e1.length = e2.length) (hn1 : dotQ e1 e1 ≠ 0) (hn2 : dotQ e2 e2 ≠ 0) :
    calculate_vector_similarity e1 e2
      = (((dotQ e1 e2 : ℚ) : ℝ)
          / (Real.sqrt ((dotQ e1 e1 : ℚ) : ℝ) * Real.sqrt ((dotQ e2 e2 : ℚ) : ℝ)) + 1) / 2 := by
  unfold calculate_vector_similarity
  rw [if_neg (by simp [h1, h2]), if_neg (by simp [hl]), if_neg ?_]
  push_neg
  constructor
  · rw [Real.sqrt_ne_zero']
    exact_mod_cast lt_of_le_of_ne (dotQ_self_nonneg e1) (Ne.symm hn1)
  · rw [Real.sqrt_ne_zero']
    exact_mod_cast lt_of_le_of_ne (dotQ_self_nonneg e2) (Ne.symm hn2)

/-- Self-similarity of a nonzero embedding is exactly 1. -/
theorem vs_self (e : List ℚ) (he : e ≠ []) (hn : dotQ e e ≠ 0) :
    calculate_vector_similarity e e = 1 := by
  rw [vs_formula e e he he rfl hn hn]
  rw [Real.mul_self_sqrt (by exact_mod_cast dotQ_self_nonneg e)]
  rw [div_self (by exact_mod_cast hn)]
  norm_num

/-- C7: the vector-similarity sub-score is total — an absent or empty
embedding on either side, a length mismatch (where np.dot would raise and
the except branch answers), or a zero norm on either side give exactly 0.5;
otherwise it is the cosine similarity remapped by (cos + 1) / 2, and for
every non-zero embedding the self-similarity is exactly 1. -/
theorem vector_similarity_spec :
    (∀ e2 : List ℚ, calculate_vector_similarity [] e2 = 1/2) ∧
    (∀ e1 : List ℚ, calculate_vector_similarity e1 [] = 1/2) ∧
    (∀ e1 e2 : List ℚ, dotQ e1 e1 = 0 ∨ dotQ e2 e2 = 0 →
      calculate_vector_similarity e1 e2 = 1/2) ∧
    (∀ e1 e2 : List ℚ, e1 ≠ [] → e2 ≠ [] → e1.length = e2.length →
      dotQ e1 e1 ≠ 0 → dotQ e2 e2 ≠ 0 →
      calculate_vector_similarity e1 e2
        = (((dotQ e1 e2 : ℚ) : ℝ)
            / (Real.sqrt ((dotQ e1 e1 : ℚ) : ℝ) * Real.sqrt ((dotQ e2 e2 : ℚ) : ℝ)) + 1) / 2) ∧
    (∀ e : List ℚ, e ≠ [] → dotQ e e ≠ 0 → calculate_vector_similarity e e = 1) :=
  ⟨vs_empty_left, vs_empty_right, vs_norm_zero, vs_formula, vs_self⟩

/-- Witness for C7: a zero vector on the left is neutral, and the
self-similarity of the embedding (1, 2) is exactly 1. -/
theorem vector_similarity_spec_witness :
    calculate_vector_similarity [(0 : ℚ)] [(1 : ℚ)] = 1/2 ∧
    calculate_vector_similarity [(1 : ℚ), 2] [(1 : ℚ), 2] = 1 := by
  constructor
  · exact vector_similarity_spec.2.2.1 [(0 : ℚ)] [(1 : ℚ)]
      (Or.inl (by norm_num [dotQ]))
  · exact vector_similarity_spec.2.2.2.2 [(1 : ℚ), 2] (by simp)
      (by norm_num [dotQ])

/-- C8 counterexample: with every profile and preference field missing, the
preference-alignment sub-score is 1.0, not the neutral 0.5 the claim
requires — the location criterion is still scored because two missing city
fields compare equal. -/
theorem preference_alignment_empty_is_one :
    calculate_preference_alignment emptyUser emptyUser emptyPrefs = 1 ∧
    calculate_preference_alignment emptyUser emptyUser emptyPrefs ≠ 1/2 := by
  have h : calculate_preference_alignment emptyUser emptyUser emptyPrefs = 1 := by
    simp [calculate_preference_alignment, alignScores, agePart, locationScore,
      religionPart, educationPart, emptyUser, emptyPrefs, pyTruthyInt]
  refine ⟨h, ?_⟩
  rw [h]
  norm_num

/-- C8 amended: the preference-alignment sub-score averages the collected
per-criterion scores; the age, religion and education criteria are
excluded when unevaluable, but the location criterion is always scored
(missing location fields compare equal), so the score list is never empty
and the neutral-0.5 branch is unreachable. -/
theorem preference_alignment_structure (u1 u2 : UserP) (p : Prefs) :
    alignScores u1 u2 p ≠ [] ∧
    calculate_preference_alignment u1 u2 p
      = (alignScores u1 u2 p).sum / (alignScores u1 u2 p).length ∧
    (alignScores u1 u2 p).length
      = (if pyTruthyInt u1.age && pyTruthyInt u2.age then 1 else 0) + 1
        + (if p.preferred_religions ≠ [] then 1 else 0)
        + (if p.preferred_education_levels ≠ [] then 1 else 0) := by
  have hne : alignScores u1 u2 p ≠ [] := by
    unfold alignScores
    simp
  refine ⟨hne, ?_, ?_⟩
  · unfold calculate_preference_alignment
    rw [if_pos hne]
  · unfold alignScores agePart religionPart educationPart
    split_ifs <;> simp

/-- C9: every fraud sub-check score lies in [0,1] — the weighted flag sum
is clamped at 1.0 even when enough flags fire to exceed it, as the
concrete behavior input with velocity, copy-paste and link flags (raw sum
1.15) shows — and the overall risk score is 0.4*profile + 0.4*behavior +
0.2*pattern. -/
theorem fraud_scores_clamped (p : FraudProfile) (b : BehaviorData) :
    (0 ≤ assess_profile_risk_score p ∧ assess_profile_risk_score p ≤ 1) ∧
    (0 ≤ assess_behavior_risk_score b ∧ assess_behavior_risk_score b ≤ 1) ∧
    (0 ≤ detect_suspicious_patterns_score b ∧ detect_suspicious_patterns_score b ≤ 1) ∧
    check_fraud_risk_score p b
      = 4/10 * assess_profile_risk_score p + 4/10 * assess_behavior_risk_score b
        + 2/10 * detect_suspicious_patterns_score b ∧
    assess_behavior_risk_score overBehavior = 1 := by
  refine ⟨⟨?_, min_le_right _ _⟩, ⟨?_, min_le_right _ _⟩, ⟨?_, min_le_right _ _⟩, rfl, ?_⟩
  · unfold assess_profile_risk_score
    exact le_min (by split_ifs <;> norm_num) (by norm_num)
  · unfold assess_behavior_risk_score
    exact le_min (by split_ifs <;> norm_num) (by norm_num)
  · unfold detect_suspicious_patterns_score
    exact le_min (by split_ifs <;> norm_num) (by norm_num)
  · norm_num [assess_behavior_risk_score, overBehavior, min_def]

/-- C10: for a non-zero current plan price (and a billing period that does
not make the source raise ZeroDivisionError), proration is computed as
new cost minus remaining value over the remaining days, the amount due is
the difference rounded and clamped to at least 0, the credit is the
rounded negation clamped to at least 0, and both reported amounts are
nonnegative. -/
theorem proration_formula (cur : String) (newp : Option String) (du dip : ℚ)
    (hp : monthly_price (some cur) ≠ 0) (hd : dip ≠ 0) :
    calculate_proration cur newp du dip
      = Except.ok
          ⟨max 0 (pyRound2 (monthly_price newp / dip * (dip - du)
              - monthly_price (some cur) / dip * (dip - du))),
           max 0 (pyRound2 (-(monthly_price newp / dip * (dip - du)
              - monthly_price (some cur) / dip * (dip - du)))),
           some (pyRound2 (monthly_price (some cur) / dip * (dip - du)))⟩ ∧
    (∀ r : ProrationResult, calculate_proration cur newp du dip = Except.ok r →
      0 ≤ r.proration_amount ∧ 0 ≤ r.credit_amount) := by
  have hmain : calculate_proration cur newp du dip
      = Except.ok
          ⟨max 0 (pyRound2 (monthly_price newp / dip * (dip - du)
              - monthly_price (some cur) / dip * (dip - du))),
           max 0 (pyRound2 (-(monthly_price newp / dip * (dip - du)
              - monthly_price (some cur) / dip * (dip - du)))),
           some (pyRound2 (monthly_price (some cur) / dip * (dip - du)))⟩ := by
    unfold calculate_proration
    rw [if_neg hp, if_neg hd]
  refine ⟨hmain, fun r hr => ?_⟩
  rw [hmain] at hr
  cases hr
  exact ⟨le_max_left _ _, le_max_left _ _⟩

/-- Witness for C10, the spec's worked example: premium (999) to elite
(1999) over a 30-day period with 10 days used gives 666.67 due, zero
credit and a remaining value of 666.00 exactly. -/
theorem proration_formula_witness :
    calculate_proration "premium" (some "elite") 10 30
      = Except.ok ⟨66667/100, 0, some 666⟩ := by
  have h := (proration_formula "premium" (some "elite") 10 30
    (by norm_num [monthly_price]) (by norm_num)).1
  rw [h]
  have hval : monthly_price (some "elite") / 30 * (30 - 10)
      - monthly_price (some "premium") / 30 * (30 - 10) = 2000/3 := by
    norm_num [monthly_price]
  have hrem : monthly_price (some "premium") / 30 * (30 - 10) = (666 : ℚ) := by
    norm_num [monthly_price]
  rw [hval, hrem]
  have hf1 : (⌊((2000 : ℚ)/3 * 100)⌋ : ℤ) = 66666 := by
    rw [Int.floor_eq_iff]
    norm_num
  have hf2 : (⌊(-((2000 : ℚ)/3) * 100)⌋ : ℤ) = -66667 := by
    rw [Int.floor_eq_iff]
    norm_num
  have h1 : pyRound2 ((2000 : ℚ)/3) = 66667/100 := by
    unfold pyRound2 roundHalfEven
    rw [hf1, if_neg (by norm_num), if_pos (by norm_num)]
    norm_num
  have h2 : pyRound2 (-((2000 : ℚ)/3)) = -(66667/100) := by
    unfold pyRound2 roundHalfEven
    rw [hf2, if_pos (by norm_num)]
    norm_num
  have h3 : pyRound2 (666 : ℚ) = 666 := by
    unfold pyRound2 roundHalfEven
    have hf3 : (⌊((666 : ℚ) * 100)⌋ : ℤ) = 66600 := by
      rw [Int.floor_eq_iff]
      norm_num
    rw [hf3, if_pos (by norm_num)]
    norm_num
  rw [h1, h2, h3]
  norm_num

/-- C1 (evaluating the code at the failing batch): with request 2 naming
an unregistered agent and every dispatched execution succeeding, the
result list of execute_parallel has length 2, not 3 — the unregistered
request is silently dropped when the task list is built, and the
surviving results are the envelopes of requests 1 and 3 packed at indexes
0 and 1. -/
theorem parallel_unregistered_dropped :
    (execute_parallel orchestrator_agents parallelExec parallelReqs).length = 2 ∧
    execute_parallel orchestrator_agents parallelExec parallelReqs
      = [PItem.res ⟨true, "safety", some "moderate_content", some [], none, 1⟩,
         PItem.res ⟨true, "matching", some "find_matches", some [], none, 1⟩] := by
  constructor
  · rfl
  · rfl

/-- C4 counterexample: a 3-step pipeline over registered agents in which
step 1 succeeds but carries a transform, step 2 fails and nothing sets
stop_on_error halts with 2 entries and overall failure, yet its
final_payload is the transform's output, not step 1's result payload. -/
theorem pipeline_transform_final_payload :
    (execute_pipeline orchestrator_agents pipeExecCex pipeStepsCex []).pipeline_results.length = 2 ∧
    (execute_pipeline orchestrator_agents pipeExecCex pipeStepsCex []).success = false ∧
    (execute_pipeline orchestrator_agents pipeExecCex pipeStepsCex []).final_payload = [("t", "1")] ∧
    (execute_pipeline orchestrator_agents pipeExecCex pipeStepsCex []).final_payload ≠ [("r1", "v")] := by
  refine ⟨rfl, rfl, rfl, ?_⟩
  have h : (execute_pipeline orchestrator_agents pipeExecCex pipeStepsCex []).final_payload
      = [("t", "1")] := rfl
  rw [h]
  decide

/-- C4 amended: for a 3-step pipeline of registered agents with no
transform and no stop_on_error set on any step, where step 1 succeeds and
step 2 fails, execute_pipeline stops after 2 entries, reports overall
failure, and its final_payload is step 1's result payload. -/
theorem pipeline_halts_on_step_failure (registry : List String)
    (exec : Option String → Option String → Payload → EnvResult)
    (a1 a2 a3 : String) (act1 act2 act3 : Option String) (init : Payload)
    (h1 : registry.contains a1 = true) (h2 : registry.contains a2 = true)
    (h3 : registry.contains a3 = true)
    (hs1 : (exec (some a1) act1 init).success = true)
    (hf2 : (exec (some a2) act2 ((exec (some a1) act1 init).result.getD [])).success = false) :
    execute_pipeline registry exec
        [⟨some a1, act1, none, none⟩, ⟨some a2, act2, none, none⟩, ⟨some a3, act3, none, none⟩]
        init
      = ⟨false,
         [PipeEntry.ran act1 (some a1) true (exec (some a1) act1 init),
          PipeEntry.ran act2 (some a2) false
            (exec (some a2) act2 ((exec (some a1) act1 init).result.getD []))],
         (exec (some a1) act1 init).result.getD []⟩ := by
  unfold execute_pipeline
  simp only [pipelineGo, h1, h2, hs1, hf2, entrySuccess, Bool.not_true, Bool.not_false,
    Bool.false_and, Bool.true_and, Option.getD_none, if_true, if_false, List.nil_append,
    List.cons_append, List.all_cons, List.all_nil, Bool.and_true, Bool.and_false]
  simp [hs1, hf2, entrySuccess]

/-- Witness for C4 amended: the concrete safety-then-matching pipeline
halts after two entries with step 1's result dict as final payload. -/
theorem pipeline_halts_on_step_failure_witness :
    execute_pipeline orchestrator_agents pipeExecCex
        [⟨some "safety", some "b1", none, none⟩, ⟨some "matching", some "b2", none, none⟩,
         ⟨some "safety", some "b3", none, none⟩] []
      = ⟨false,
         [PipeEntry.ran (some "b1") (some "safety") true
            (pipeExecCex (some "safety") (some "b1") []),
          PipeEntry.ran (some "b2") (some "matching") false
            (pipeExecCex (some "matching") (some "b2")
              ((pipeExecCex (some "safety") (some "b1") []).result.getD []))],
         (pipeExecCex (some "safety") (some "b1") []).result.getD []⟩ :=
  pipeline_halts_on_step_failure orchestrator_agents pipeExecCex
    "safety" "matching" "safety" (some "b1") (some "b2") (some "b3") []
    rfl rfl rfl rfl rfl

/-- C6: an action outside the recognized set of MatchingAgent.process (or
SafetyAgent.process) yields the error-bearing dict as a normal return, so
the execute envelope reports success=true carrying that dict as the
result — distinguished from an execution failure, whatever the
sub-handlers would have done. -/
theorem unknown_action_normal_result (handlers : String → Except String Payload)
    (action : Option String) (t : ℤ) :
    (action ∉ matching_actions.map some →
      matching_process handlers action
        = Except.ok [("error", "Unknown action: " ++ pyStrOpt action)] ∧
      execute "matching" action t (matching_process handlers action)
        = ⟨true, "matching", action,
           some [("error", "Unknown action: " ++ pyStrOpt action)], none, t⟩) ∧
    (action ∉ safety_actions.map some →
      safety_process handlers action
        = Except.ok [("error", "Unknown action: " ++ pyStrOpt action)] ∧
      execute "safety" action t (safety_process handlers action)
        = ⟨true, "safety", action,
           some [("error", "Unknown action: " ++ pyStrOpt action)], none, t⟩) := by
  constructor
  · intro h
    have h1 : ¬ action = some "find_matches" :=
      fun e => h (by rw [e]; simp [matching_actions])
    have h2 : ¬ action = some "calculate_compatibility" :=
      fun e => h (by rw [e]; simp [matching_actions])
    have h3 : ¬ action = some "explain_match" :=
      fun e => h (by rw [e]; simp [matching_actions])
    have h4 : ¬ action = some "rank_candidates" :=
      fun e => h (by rw [e]; simp [matching_actions])
    unfold matching_process
    rw [if_neg h1, if_neg h2, if_neg h3, if_neg h4]
    exact ⟨rfl, rfl⟩
  · intro h
    have h1 : ¬ action = some "moderate_content" :=
      fun e => h (by rw [e]; simp [safety_actions])
    have h2 : ¬ action = some "check_message" :=
      fun e => h (by rw [e]; simp [safety_actions])
    have h3 : ¬ action = some "check_profile" :=
      fun e => h (by rw [e]; simp [safety_actions])
    have h4 : ¬ action = some "analyze_image" :=
      fun e => h (by rw [e]; simp [safety_actions])
    unfold safety_process
    rw [if_neg h1, if_neg h2, if_neg h3, if_neg h4]
    exact ⟨rfl, rfl⟩

/-- Witness for C6: the unrecognized action bogus comes back through the
matching agent's envelope as a success carrying the unknown-action error
dict. -/
theorem unknown_action_normal_result_witness :
    execute "matching" (some "bogus") 5
        (matching_process (fun _ => Except.ok []) (some "bogus"))
      = ⟨true, "matching", some "bogus",
         some [("error", "Unknown action: bogus")], none, 5⟩ :=
  ((unknown_action_normal_result (fun _ => Except.ok []) (some "bogus") 5).1 (by decide)).2

/-- C5 counterexample: the normalizer does not always return a map — a
direct parse of "[1, 2]" succeeds at stage 1 with a list, which is
returned as-is. -/
theorem parse_non_object_passthrough :
    Json.isObj (parse_json_response "[1, 2]") = false ∧
    parse_json_response "[1, 2]" = Json.arr [Json.num 1, Json.num 2] := by
  constructor
  · rfl
  · with_unfolding_all rfl

/-- C5 amended: the normalizer is total and tries the three stages in
order — whenever the direct parse, the fenced-block parse and the
brace-span parse all fail it returns exactly the raw_response dict (a map
in every fallback case; stage-1 and later successes return the parsed
value, which is a map only when the text parsed to an object). -/
theorem parse_json_response_fallback (t : String)
    (h1 : jsonLoads t = none)
    (h2 : ∀ f, extractFenced t = some f → jsonLoads f = none)
    (h3 : ∀ b, extractBraces t.data = some b → jsonLoads ⟨b⟩ = none) :
    parse_json_response t = Json.obj [("raw_response", Json.str t)] := by
  have hbrace : braceFallback t = Json.obj [("raw_response", Json.str t)] := by
    unfold braceFallback
    cases hb : extractBraces t.data with
    | none => rfl
    | some b => simp [h3 b hb]
  unfold parse_json_response
  rw [h1]
  cases hf : extractFenced t with
  | none => exact hbrace
  | some f => simp [h2 f hf, hbrace]

/-- Witness for C5 amended, the spec's example: the normalizer degrades
"not json at all" to the raw_response dict. -/
theorem parse_json_response_fallback_witness :
    parse_json_response "not json at all"
      = Json.obj [("raw_response", Json.str "not json at all")] :=
  parse_json_response_fallback "not json at all" rfl
    (fun f hf => Option.noConfusion
      ((show extractFenced "not json at all" = none from rfl) ▸ hf))
    (fun b hb => Option.noConfusion
      ((show extractBraces ("not json at all" : String).data = none from rfl) ▸ hb))
